import Mathlib

/-!
Verification of the hello-plugin execution unit
(src/samples/plugins/hello-plugin/src/lib.rs).

The plugin exchanges JSON values with its host.  We embed `serde_json::Value`
as the inductive `Json` below.  serde_json stores a number either as a machine
integer (i64 / u64) or as a double; `Json.intNum` models the integer-stored
case and `Json.floatNum` the double-stored case, the latter carrying the exact
rational value of the double.  `Number::as_i64` returns the value only for
integer-stored numbers inside the i64 range, never for double-stored ones;
`Json.asI64` mirrors this.  Rust `HashMap<String, Value>` is embedded as an
association list with unique keys; `insertKV` has the replace-or-add semantics
of `HashMap::insert` and `lookupKV` the semantics of `HashMap::get`.
-/

inductive Json where
  | null
  | bool (b : Bool)
  | intNum (n : Int)
  | floatNum (q : ℚ)
  | str (s : String)
  | arr (elems : List Json)
  | obj (fields : List (String × Json))

/-- Embedding of `serde_json::Value::as_str`. -/
def Json.asStr : Json → Option String
  | .str s => some s
  | _ => none

/-- Embedding of `serde_json::Value::as_i64`: integer-stored numbers inside
the i64 range only; double-stored numbers always give `none`. -/
def Json.asI64 : Json → Option Int
  | .intNum n => if -(2 ^ 63) ≤ n ∧ n < 2 ^ 63 then some n else none
  | _ => none

/-- `HashMap::get` on the association-list embedding. -/
def lookupKV : List (String × Json) → String → Option Json
  | [], _ => none
  | (k₀, v₀) :: t, k => if k₀ = k then some v₀ else lookupKV t k

/-- `HashMap::insert` on the association-list embedding: replace any existing
entry for the key, otherwise add one. -/
def insertKV (m : List (String × Json)) (k : String) (v : Json) : List (String × Json) :=
  m.filter (fun p => p.1 != k) ++ [(k, v)]

/-- The `PluginInput` struct: the decoded request. -/
structure PluginInput where
  function : String
  user_id : Option String
  tenant_id : Option String
  input : List (String × Json)
  journey_data : List (String × Json)

/-- The `PluginOutput` struct: the outcome returned to the executor. -/
structure PluginOutput where
  success : Bool
  error : Option String
  action : Option String
  data : Option (List (String × Json))

/-- `PluginOutput::success` (the constructor function). -/
def PluginOutput.mkSuccess (data : List (String × Json)) : PluginOutput :=
  { success := true, error := none, action := some "continue", data := some data }

/-- `PluginOutput::error` (the constructor function). -/
def PluginOutput.mkError (message : String) : PluginOutput :=
  { success := false, error := some message, action := some "fail", data := none }

/-- `PluginOutput::require_input` (the constructor function). -/
def PluginOutput.mkRequireInput (data : List (String × Json)) : PluginOutput :=
  { success := true, error := none, action := some "require_input", data := some data }

/-- `PluginOutput::branch` (the constructor function): inserts `branchId`
into the supplied data. -/
def PluginOutput.mkBranch (branch_id : String) (data : List (String × Json)) : PluginOutput :=
  { success := true, error := none, action := some "branch",
    data := some (insertKV data "branchId" (Json.str branch_id)) }

/-- The `greet` handler. -/
def greet (input : PluginInput) : PluginOutput :=
  let name := ((lookupKV input.input "name").bind Json.asStr).getD "World"
  let user_id := input.user_id.getD "anonymous"
  let data := insertKV [] "greeting" (Json.str ("Hello, " ++ name ++ "!"))
  let data := insertKV data "user_id" (Json.str user_id)
  let data := insertKV data "plugin_version" (Json.str "1.0.0")
  PluginOutput.mkSuccess data

/-- Rust `str::contains(char)`: some character of the string equals the
given one.  Defined over the character list so that it reduces. -/
def strContainsChar (s : String) (c : Char) : Bool :=
  s.data.contains c

/-- An ASCII string: every character has a code point below 128. -/
def strIsAscii (s : String) : Bool :=
  s.data.all fun c => c.toNat < 128

/-- Rust `str::to_uppercase`, restricted to the ASCII case mapping
(`Char.toUpper` maps exactly `a`-`z` to `A`-`Z` and fixes everything
else).  On ASCII strings this coincides with `str::to_uppercase`; on
non-ASCII strings it does not (Rust also uppercases letters such as
`é`), so theorems that assert an upper-cased value are stated only for
ASCII string values (see `strIsAscii`). -/
def asciiToUpper (s : String) : String :=
  ⟨s.data.map Char.toUpper⟩

/-- The `errors` list accumulated by the `validate` handler: the email checks
followed by the age checks, in source order. -/
def validateErrors (input : PluginInput) : List String :=
  let email := lookupKV input.input "email"
  let age := lookupKV input.input "age"
  let emailErrors : List String :=
    if email.isNone || ((email.bind Json.asStr).getD "").isEmpty then
      ["Email is required"]
    else
      let email_str := (email.bind Json.asStr).getD ""
      if ¬ strContainsChar email_str '@' then ["Email must contain @"] else []
  let ageErrors : List String :=
    match age with
    | some age_val =>
      match age_val.asI64 with
      | some age_num =>
        if age_num < 0 ∨ age_num > 150 then ["Age must be between 0 and 150"] else []
      | none => ["Age must be a number"]
    | none => []
  emailErrors ++ ageErrors

/-- The `validate` handler. -/
def validate (input : PluginInput) : PluginOutput :=
  let errors := validateErrors input
  if errors.isEmpty then
    PluginOutput.mkSuccess (insertKV [] "validated" (Json.bool true))
  else
    PluginOutput.mkError (String.intercalate "; " errors)

/-- One iteration of the `transform` loop body. -/
def transformStep (d : List (String × Json)) (kv : String × Json) : List (String × Json) :=
  match kv.2.asStr with
  | some s => insertKV d (kv.1 ++ "_transformed") (Json.str (asciiToUpper s))
  | none => insertKV d kv.1 kv.2

/-- The `transform` handler. -/
def transform (input : PluginInput) : PluginOutput :=
  let data := input.input.foldl transformStep []
  let data := insertKV data "transformed_at" (Json.str "2024-01-01T00:00:00Z")
  let data := insertKV data "transformer" (Json.str "hello-plugin")
  PluginOutput.mkSuccess data

/-- The `branch_example` handler. -/
def branch_example (input : PluginInput) : PluginOutput :=
  let role := ((lookupKV input.input "role").bind Json.asStr).getD "user"
  let branch_id :=
    if role = "admin" then "admin_flow"
    else if role = "moderator" then "moderator_flow"
    else "default_flow"
  let data := insertKV [] "selected_branch" (Json.str branch_id)
  let data := insertKV data "role" (Json.str role)
  PluginOutput.mkBranch branch_id data

/-- The dispatch `match` inside the `execute` entry point. -/
def dispatch (input : PluginInput) : PluginOutput :=
  if input.function = "execute" ∨ input.function = "greet" then greet input
  else if input.function = "validate" then validate input
  else if input.function = "transform" then transform input
  else if input.function = "branch" then branch_example input
  else PluginOutput.mkError ("Unknown function: " ++ input.function)

/-- serde decoding of an `Option<String>` field from its (possibly absent)
JSON value: absent or `null` give `none`, a string gives `some`, anything
else is a type error. -/
def decodeOptString : Option Json → Except String (Option String)
  | none => .ok none
  | some Json.null => .ok none
  | some (Json.str s) => .ok (some s)
  | some _ => .error "invalid type for optional string field"

/-- serde decoding of a `PluginInput` from a JSON value: the value must be an
object; `function` must be present and a string; `userId` and `tenantId` are
optional strings; `input` and `journeyData` must be present and objects.
Fields with other names are ignored. -/
def decodePluginInput (v : Json) : Except String PluginInput :=
  match v with
  | Json.obj fields =>
    match lookupKV fields "function" with
    | none => .error "missing field function"
    | some (Json.str fn) =>
      match decodeOptString (lookupKV fields "userId") with
      | .error e => .error e
      | .ok uid =>
        match decodeOptString (lookupKV fields "tenantId") with
        | .error e => .error e
        | .ok tid =>
          match lookupKV fields "input" with
          | some (Json.obj iv) =>
            match lookupKV fields "journeyData" with
            | some (Json.obj jv) =>
              .ok { function := fn, user_id := uid, tenant_id := tid,
                    input := iv, journey_data := jv }
            | some _ => .error "invalid type for field journeyData"
            | none => .error "missing field journeyData"
          | some _ => .error "invalid type for field input"
          | none => .error "missing field input"
    | some _ => .error "invalid type for field function"
  | _ => .error "expected object"

/-- serde encoding of a `PluginOutput` to a JSON value: `error`, `action` and
`data` are omitted when absent (`skip_serializing_if = Option::is_none`). -/
def encodeOutput (o : PluginOutput) : Json :=
  Json.obj
    ([("success", Json.bool o.success)]
      ++ (match o.error with | some e => [("error", Json.str e)] | none => [])
      ++ (match o.action with | some a => [("action", Json.str a)] | none => [])
      ++ (match o.data with | some d => [("data", Json.obj d)] | none => []))

/-- The fixed form schema built by the `collect_data` entry point. -/
def formSchema : List (String × Json) :=
  let m := insertKV [] "title" (Json.str "Additional Information")
  let m := insertKV m "description" (Json.str "Please provide the following information")
  insertKV m "fields" (Json.arr
    [ Json.obj
        [ ("name", Json.str "company"), ("type", Json.str "text"),
          ("label", Json.str "Company Name"), ("required", Json.bool true) ],
      Json.obj
        [ ("name", Json.str "department"), ("type", Json.str "select"),
          ("label", Json.str "Department"),
          ("options", Json.arr
            [ Json.obj [("value", Json.str "engineering"), ("label", Json.str "Engineering")],
              Json.obj [("value", Json.str "sales"), ("label", Json.str "Sales")],
              Json.obj [("value", Json.str "marketing"), ("label", Json.str "Marketing")],
              Json.obj [("value", Json.str "support"), ("label", Json.str "Support")] ]) ],
      Json.obj
        [ ("name", Json.str "notes"), ("type", Json.str "textarea"),
          ("label", Json.str "Additional Notes"), ("rows", Json.intNum 3) ] ])

/-- The outcome the `collect_data` entry point always produces. -/
def collectDataOutput : PluginOutput :=
  PluginOutput.mkRequireInput formSchema

/-- The `execute` entry point at the structured-value layer: decode, dispatch,
encode; a decode failure is a hard call-level failure. -/
def executeEntry (v : Json) : Except String Json :=
  match decodePluginInput v with
  | .error e => .error ("Failed to parse input: " ++ e)
  | .ok input => .ok (encodeOutput (dispatch input))

/-- The `validate_input` entry point: decode, always run `validate`, encode. -/
def validateInputEntry (v : Json) : Except String Json :=
  match decodePluginInput v with
  | .error e => .error ("Failed to parse input: " ++ e)
  | .ok input => .ok (encodeOutput (validate input))

/-- The `collect_data` entry point: the argument is ignored and the fixed
form-schema outcome is returned. -/
def collectDataEntry (_v : Json) : Except String Json :=
  .ok (encodeOutput collectDataOutput)

/-! ### Basic lemmas about the association-list map -/

theorem lookupKV_append (l₁ l₂ : List (String × Json)) (k : String) :
    lookupKV (l₁ ++ l₂) k =
      match lookupKV l₁ k with
      | some v => some v
      | none => lookupKV l₂ k := by
  induction l₁ with
  | nil => simp [lookupKV]
  | cons p t ih =>
    obtain ⟨a, b⟩ := p
    by_cases h : a = k <;> simp [lookupKV, h, ih]

theorem lookupKV_filter_self (m : List (String × Json)) (k : String) :
    lookupKV (m.filter (fun p => p.1 != k)) k = none := by
  induction m with
  | nil => simp [lookupKV]
  | cons p t ih =>
    obtain ⟨a, b⟩ := p
    by_cases h : a = k <;> simp [List.filter_cons, h, lookupKV, ih]

theorem lookupKV_filter_ne (m : List (String × Json)) (k q : String) (hq : q ≠ k) :
    lookupKV (m.filter (fun p => p.1 != k)) q = lookupKV m q := by
  induction m with
  | nil => simp
  | cons p t ih =>
    obtain ⟨a, b⟩ := p
    by_cases hak : a = k
    · simp [List.filter_cons, hak, lookupKV, Ne.symm hq, ih]
    · by_cases haq : a = q <;>
        simp [List.filter_cons, bne_iff_ne, hak, lookupKV, haq, hq, ih]

theorem lookupKV_insert_self (m : List (String × Json)) (k : String) (v : Json) :
    lookupKV (insertKV m k v) k = some v := by
  simp [insertKV, lookupKV_append, lookupKV_filter_self, lookupKV]

theorem lookupKV_insert_ne (m : List (String × Json)) (k : String) (v : Json)
    (q : String) (hq : q ≠ k) : lookupKV (insertKV m k v) q = lookupKV m q := by
  rw [insertKV, lookupKV_append, lookupKV_filter_ne m k q hq]
  cases h : lookupKV m q <;> simp [lookupKV, Ne.symm hq]

/-! ### Outcome invariants -/

/-- The outcome invariants stated by the design: a successful outcome carries
no error and its action is not `fail`; a failed outcome has action `fail` and
no data; every constructor-produced outcome has an action. -/
def outcomeInv (o : PluginOutput) : Prop :=
  (o.success = true → o.error = none ∧ o.action ≠ some "fail") ∧
  (o.success = false → o.action = some "fail" ∧ o.data = none) ∧
  o.action.isSome = true

theorem outcomeInv_mkSuccess (d : List (String × Json)) :
    outcomeInv (PluginOutput.mkSuccess d) := by
  simp [outcomeInv, PluginOutput.mkSuccess]

theorem outcomeInv_mkError (m : String) : outcomeInv (PluginOutput.mkError m) := by
  simp [outcomeInv, PluginOutput.mkError]

theorem outcomeInv_mkRequireInput (d : List (String × Json)) :
    outcomeInv (PluginOutput.mkRequireInput d) := by
  simp [outcomeInv, PluginOutput.mkRequireInput]

theorem outcomeInv_mkBranch (bid : String) (d : List (String × Json)) :
    outcomeInv (PluginOutput.mkBranch bid d) := by
  simp [outcomeInv, PluginOutput.mkBranch]

theorem validate_shape (inp : PluginInput) :
    validate inp = PluginOutput.mkSuccess (insertKV [] "validated" (Json.bool true)) ∨
    ∃ m, validate inp = PluginOutput.mkError m := by
  unfold validate
  dsimp only
  split
  · exact Or.inl rfl
  · exact Or.inr ⟨_, rfl⟩

theorem outcomeInv_greet (inp : PluginInput) : outcomeInv (greet inp) :=
  outcomeInv_mkSuccess _

theorem outcomeInv_validate (inp : PluginInput) : outcomeInv (validate inp) := by
  rcases validate_shape inp with h | ⟨m, h⟩ <;> rw [h]
  · exact outcomeInv_mkSuccess _
  · exact outcomeInv_mkError _

theorem outcomeInv_transform (inp : PluginInput) : outcomeInv (transform inp) :=
  outcomeInv_mkSuccess _

theorem outcomeInv_branch_example (inp : PluginInput) : outcomeInv (branch_example inp) :=
  outcomeInv_mkBranch _ _

theorem outcomeInv_dispatch (inp : PluginInput) : outcomeInv (dispatch inp) := by
  unfold dispatch
  split
  · exact outcomeInv_greet _
  split
  · exact outcomeInv_validate _
  split
  · exact outcomeInv_transform _
  split
  · exact outcomeInv_branch_example _
  · exact outcomeInv_mkError _

/-- C8: every outcome produced by a handler, by the dispatcher, by the
`collect_data` entry point, or by one of the four defined constructors
satisfies the outcome invariants: success implies no error and action not
`fail`; failure implies action `fail` and no data; and the action is always
present. -/
theorem all_outcomes_satisfy_invariants (inp : PluginInput) (d : List (String × Json))
    (m bid : String) :
    outcomeInv (greet inp) ∧ outcomeInv (validate inp) ∧ outcomeInv (transform inp) ∧
    outcomeInv (branch_example inp) ∧ outcomeInv (dispatch inp) ∧
    outcomeInv collectDataOutput ∧
    outcomeInv (PluginOutput.mkSuccess d) ∧ outcomeInv (PluginOutput.mkError m) ∧
    outcomeInv (PluginOutput.mkRequireInput d) ∧ outcomeInv (PluginOutput.mkBranch bid d) :=
  ⟨outcomeInv_greet inp, outcomeInv_validate inp, outcomeInv_transform inp,
   outcomeInv_branch_example inp, outcomeInv_dispatch inp,
   outcomeInv_mkRequireInput formSchema,
   outcomeInv_mkSuccess d, outcomeInv_mkError m,
   outcomeInv_mkRequireInput d, outcomeInv_mkBranch bid d⟩

/-! ### greet (C7) -/

/-- C7: the greet handler always succeeds with action `continue` and data
`{greeting: "Hello, {name}!", user_id, plugin_version: "1.0.0"}`, where
`name` is `input.name` when that is a string and `"World"` otherwise, and
`user_id` is the request's `userId` or `"anonymous"` when absent; with empty
input and no `userId` this gives `"Hello, World!"` and `"anonymous"`. -/
theorem greet_spec (inp : PluginInput) (name uid : String)
    (hname : name = ((lookupKV inp.input "name").bind Json.asStr).getD "World")
    (huid : uid = inp.user_id.getD "anonymous") :
    greet inp = PluginOutput.mkSuccess
      [("greeting", Json.str ("Hello, " ++ name ++ "!")),
       ("user_id", Json.str uid),
       ("plugin_version", Json.str "1.0.0")] ∧
    (greet inp).success = true ∧ (greet inp).action = some "continue" ∧
    ∃ d, (greet inp).data = some d ∧
      lookupKV d "greeting" = some (Json.str ("Hello, " ++ name ++ "!")) ∧
      lookupKV d "user_id" = some (Json.str uid) ∧
      lookupKV d "plugin_version" = some (Json.str "1.0.0") := by
  subst hname huid
  exact ⟨rfl, rfl, rfl, _, rfl, rfl, rfl, rfl⟩

/-- Witness for C7: the concrete request with empty input and no user id. -/
theorem greet_spec_witness :
    greet { function := "greet", user_id := none, tenant_id := none,
            input := [], journey_data := [] } =
      PluginOutput.mkSuccess
        [("greeting", Json.str "Hello, World!"),
         ("user_id", Json.str "anonymous"),
         ("plugin_version", Json.str "1.0.0")] :=
  (greet_spec { function := "greet", user_id := none, tenant_id := none,
                input := [], journey_data := [] } "World" "anonymous" rfl rfl).1

/-! ### branch_example (C5) -/

/-- C5: the branch_example handler reads `input.role` (defaulting to
`"user"` when absent or not a string), maps `"admin"` to `admin_flow`,
`"moderator"` to `moderator_flow` and anything else to `default_flow`,
and produces a branch outcome whose data holds `selected_branch`, `role`
and `branchId`, all consistent with the chosen branch id. -/
theorem branch_example_spec (inp : PluginInput) (role bid : String)
    (hrole : role = ((lookupKV inp.input "role").bind Json.asStr).getD "user")
    (hbid : bid = if role = "admin" then "admin_flow"
                  else if role = "moderator" then "moderator_flow"
                  else "default_flow") :
    (branch_example inp).success = true ∧
    (branch_example inp).action = some "branch" ∧
    ∃ d, (branch_example inp).data = some d ∧
      lookupKV d "selected_branch" = some (Json.str bid) ∧
      lookupKV d "role" = some (Json.str role) ∧
      lookupKV d "branchId" = some (Json.str bid) := by
  subst hrole hbid
  exact ⟨rfl, rfl, _, rfl, rfl, rfl, rfl⟩

/-- Witness for C5: role `"admin"` selects `admin_flow` in all three keys. -/
theorem branch_example_spec_witness :
    (branch_example { function := "branch", user_id := none, tenant_id := none,
                      input := [("role", Json.str "admin")], journey_data := [] }).action
        = some "branch" ∧
    ∃ d, (branch_example { function := "branch", user_id := none, tenant_id := none,
                           input := [("role", Json.str "admin")], journey_data := [] }).data
           = some d ∧
      lookupKV d "selected_branch" = some (Json.str "admin_flow") ∧
      lookupKV d "role" = some (Json.str "admin") ∧
      lookupKV d "branchId" = some (Json.str "admin_flow") :=
  ⟨(branch_example_spec { function := "branch", user_id := none, tenant_id := none,
                          input := [("role", Json.str "admin")], journey_data := [] }
      "admin" "admin_flow" rfl rfl).2.1,
   (branch_example_spec { function := "branch", user_id := none, tenant_id := none,
                          input := [("role", Json.str "admin")], journey_data := [] }
      "admin" "admin_flow" rfl rfl).2.2⟩

/-! ### transform metadata (C10) -/

/-- C10: for every request the transform outcome maps `transformed_at` to
the fixed timestamp and `transformer` to `"hello-plugin"`, even when the
request's input already holds entries under those keys: the metadata entries
are inserted after the copy loop and overwrite anything stored there. -/
theorem transform_metadata_overrides (inp : PluginInput) :
    ∃ d, (transform inp).data = some d ∧
      lookupKV d "transformed_at" = some (Json.str "2024-01-01T00:00:00Z") ∧
      lookupKV d "transformer" = some (Json.str "hello-plugin") := by
  refine ⟨_, rfl, ?_, lookupKV_insert_self _ _ _⟩
  rw [lookupKV_insert_ne _ _ _ _ (by decide)]
  exact lookupKV_insert_self _ _ _

/-! ### collect_data (C1) -/

/-- C1 counterexample: the outcome produced by `collect_data` carries the
action string `"require_input"`, not `"requireInput"` as claimed. -/
theorem collect_data_action_counterexample :
    collectDataEntry (Json.obj []) = .ok (encodeOutput collectDataOutput) ∧
    collectDataOutput.action = some "require_input" ∧
    collectDataOutput.action ≠ some "requireInput" := by
  refine ⟨rfl, rfl, ?_⟩
  decide

/-- C1 (amended): for every input value the `collect_data` entry point
returns a success outcome whose action field equals `"require_input"` and
whose data is the fixed form-schema mapping: title `"Additional
Information"`, the fixed description, and the fixed ordered fields list for
company, department and notes. -/
theorem collect_data_spec (v : Json) :
    collectDataEntry v = .ok (encodeOutput collectDataOutput) ∧
    collectDataOutput.success = true ∧
    collectDataOutput.error = none ∧
    collectDataOutput.action = some "require_input" ∧
    ∃ d, collectDataOutput.data = some d ∧
      lookupKV d "title" = some (Json.str "Additional Information") ∧
      lookupKV d "description" = some (Json.str "Please provide the following information") ∧
      lookupKV d "fields" = some (Json.arr
        [ Json.obj
            [ ("name", Json.str "company"), ("type", Json.str "text"),
              ("label", Json.str "Company Name"), ("required", Json.bool true) ],
          Json.obj
            [ ("name", Json.str "department"), ("type", Json.str "select"),
              ("label", Json.str "Department"),
              ("options", Json.arr
                [ Json.obj [("value", Json.str "engineering"), ("label", Json.str "Engineering")],
                  Json.obj [("value", Json.str "sales"), ("label", Json.str "Sales")],
                  Json.obj [("value", Json.str "marketing"), ("label", Json.str "Marketing")],
                  Json.obj [("value", Json.str "support"), ("label", Json.str "Support")] ]) ],
          Json.obj
            [ ("name", Json.str "notes"), ("type", Json.str "textarea"),
              ("label", Json.str "Additional Notes"), ("rows", Json.intNum 3) ] ]) :=
  ⟨rfl, rfl, rfl, rfl, _, rfl, rfl, rfl, rfl⟩

/-! ### dispatch (C4) -/

/-- The five function names the dispatcher recognises. -/
def knownFunctionNames : List String :=
  ["execute", "greet", "validate", "transform", "branch"]

/-- C4: for a decodable request whose function name is not one of the five
known names, the execute entry point completes with a failure outcome whose
error is exactly `"Unknown function: {name}"`, with `success = false` and
action `"fail"`; for each known name exactly the mapped handler runs. -/
theorem dispatch_spec (v : Json) (inp : PluginInput)
    (hdec : decodePluginInput v = .ok inp) :
    (inp.function ∉ knownFunctionNames →
      dispatch inp = { success := false,
                       error := some ("Unknown function: " ++ inp.function),
                       action := some "fail", data := none } ∧
      executeEntry v =
        .ok (encodeOutput (PluginOutput.mkError ("Unknown function: " ++ inp.function)))) ∧
    ((inp.function = "execute" ∨ inp.function = "greet") → dispatch inp = greet inp) ∧
    (inp.function = "validate" → dispatch inp = validate inp) ∧
    (inp.function = "transform" → dispatch inp = transform inp) ∧
    (inp.function = "branch" → dispatch inp = branch_example inp) := by
  refine ⟨fun hnk => ?_, fun h => ?_, fun h => ?_, fun h => ?_, fun h => ?_⟩
  · simp only [knownFunctionNames, List.mem_cons, List.not_mem_nil, or_false, not_or] at hnk
    obtain ⟨h1, h2, h3, h4, h5⟩ := hnk
    have hdisp : dispatch inp = PluginOutput.mkError ("Unknown function: " ++ inp.function) := by
      unfold dispatch
      rw [if_neg (by simp [h1, h2]), if_neg h3, if_neg h4, if_neg h5]
    refine ⟨hdisp, ?_⟩
    unfold executeEntry
    rw [hdec]
    dsimp only
    rw [hdisp]
  · unfold dispatch
    rw [if_pos h]
  · unfold dispatch
    rw [if_neg (by simp [h]), if_pos h]
  · unfold dispatch
    rw [if_neg (by simp [h]), if_neg (by simp [h]), if_pos h]
  · unfold dispatch
    rw [if_neg (by simp [h]), if_neg (by simp [h]), if_neg (by simp [h]), if_pos h]

/-- Witness for C4: function `"nope"` yields the unknown-function failure
outcome through the execute entry point. -/
theorem dispatch_spec_witness :
    dispatch { function := "nope", user_id := none, tenant_id := none,
               input := [], journey_data := [] } =
      { success := false, error := some ("Unknown function: " ++ "nope"),
        action := some "fail", data := none } ∧
    executeEntry (Json.obj [("function", Json.str "nope"), ("input", Json.obj []),
                            ("journeyData", Json.obj [])]) =
      .ok (encodeOutput (PluginOutput.mkError ("Unknown function: " ++ "nope"))) :=
  (dispatch_spec (Json.obj [("function", Json.str "nope"), ("input", Json.obj []),
                            ("journeyData", Json.obj [])])
     { function := "nope", user_id := none, tenant_id := none,
       input := [], journey_data := [] } rfl).1 (by decide)

/-! ### validate (C2, C3) -/

/-- A JSON value that is a number (integer-stored or double-stored). -/
def isJsonNumber : Json → Prop
  | .intNum _ => True
  | .floatNum _ => True
  | _ => False

/-- A JSON number lying in the closed range `[lo, hi]`. -/
def numInRange (v : Json) (lo hi : ℚ) : Prop :=
  match v with
  | .intNum n => lo ≤ (n : ℚ) ∧ (n : ℚ) ≤ hi
  | .floatNum q => lo ≤ q ∧ q ≤ hi
  | _ => False

/-- C2 counterexample: with email `"a@b.com"` and age `30.5` — a number in
the closed range `[0, 150]` but not an integer — the validate handler fails
with `"Age must be a number"` instead of succeeding, because `as_i64`
rejects double-stored numbers. -/
theorem validate_number_counterexample :
    numInRange (Json.floatNum (61 / 2)) 0 150 ∧
    validate { function := "validate", user_id := none, tenant_id := none,
               input := [("email", Json.str "a@b.com"), ("age", Json.floatNum (61 / 2))],
               journey_data := [] } =
      PluginOutput.mkError "Age must be a number" ∧
    (PluginOutput.mkError "Age must be a number").success = false := by
  refine ⟨?_, rfl, rfl⟩
  show (0 : ℚ) ≤ 61 / 2 ∧ (61 / 2 : ℚ) ≤ 150
  norm_num

/-- C2 (amended): if `input.email` is a non-empty string containing `'@'`
and `input.age` is absent or an integer-stored number in `[0, 150]`, the
validate handler succeeds with `data.validated = true` and action
`continue`. -/
theorem validate_accepts (inp : PluginInput) (e : String)
    (hemail : lookupKV inp.input "email" = some (Json.str e))
    (hne : e.isEmpty = false)
    (hat : strContainsChar e '@' = true)
    (hage : lookupKV inp.input "age" = none ∨
            ∃ n : Int, lookupKV inp.input "age" = some (Json.intNum n) ∧ 0 ≤ n ∧ n ≤ 150) :
    validate inp = PluginOutput.mkSuccess [("validated", Json.bool true)] ∧
    (validate inp).success = true ∧ (validate inp).action = some "continue" ∧
    ∃ d, (validate inp).data = some d ∧ lookupKV d "validated" = some (Json.bool true) := by
  have herrs : validateErrors inp = [] := by
    rcases hage with hage | ⟨n, hage, hn0, hn150⟩
    · simp [validateErrors, hemail, hage, hne, hat, Json.asStr]
    · have hi64 : (Json.intNum n).asI64 = some n := by
        show (if -(2 ^ 63) ≤ n ∧ n < 2 ^ 63 then some n else none) = some n
        rw [if_pos ⟨le_trans (by norm_num) hn0, lt_of_le_of_lt hn150 (by norm_num)⟩]
      have hrange : ¬ (n < 0 ∨ n > 150) := by omega
      simp [validateErrors, hemail, hage, hne, hat, Json.asStr, hi64, hrange]
  have hmain : validate inp = PluginOutput.mkSuccess [("validated", Json.bool true)] := by
    unfold validate
    dsimp only
    rw [herrs]
    rfl
  rw [hmain]
  exact ⟨rfl, rfl, rfl, _, rfl, rfl⟩

/-- Witness for C2: email `"a@b.com"` and age `30` validate successfully. -/
theorem validate_accepts_witness :
    validate { function := "validate", user_id := none, tenant_id := none,
               input := [("email", Json.str "a@b.com"), ("age", Json.intNum 30)],
               journey_data := [] } =
      PluginOutput.mkSuccess [("validated", Json.bool true)] :=
  (validate_accepts { function := "validate", user_id := none, tenant_id := none,
                      input := [("email", Json.str "a@b.com"), ("age", Json.intNum 30)],
                      journey_data := [] } "a@b.com" rfl rfl (by decide)
     (Or.inr ⟨30, rfl, by decide, by decide⟩)).1

/-- C3 counterexample: with email `"x"` and age `200.5` — present and a
number outside `[0, 150]` — the aggregated error says `"Age must be a
number"`, not `"Age must be between 0 and 150"`, because `as_i64` rejects
double-stored numbers before the range check. -/
theorem validate_aggregate_counterexample :
    isJsonNumber (Json.floatNum (401 / 2)) ∧
    ¬ numInRange (Json.floatNum (401 / 2)) 0 150 ∧
    validate { function := "validate", user_id := none, tenant_id := none,
               input := [("email", Json.str "x"), ("age", Json.floatNum (401 / 2))],
               journey_data := [] } =
      PluginOutput.mkError "Email must contain @; Age must be a number" ∧
    "Email must contain @; Age must be a number" ≠
      "Email must contain @; Age must be between 0 and 150" := by
  refine ⟨True.intro, ?_, rfl, by decide⟩
  show ¬ ((0 : ℚ) ≤ 401 / 2 ∧ (401 / 2 : ℚ) ≤ 150)
  norm_num

/-- C3 (amended): if `input.email` is a non-empty string lacking `'@'` and
`input.age` is an integer-stored number outside `[0, 150]`, the validate
handler fails and its error is the two violation messages joined by `"; "`,
email message first: `"Email must contain @; Age must be between 0 and
150"`; the violations are aggregated, not short-circuited. -/
theorem validate_aggregates (inp : PluginInput) (e : String) (n : Int)
    (hemail : lookupKV inp.input "email" = some (Json.str e))
    (hne : e.isEmpty = false)
    (hat : strContainsChar e '@' = false)
    (hage : lookupKV inp.input "age" = some (Json.intNum n))
    (hlo : -(2 ^ 63) ≤ n) (hhi : n < 2 ^ 63)
    (hrange : n < 0 ∨ n > 150) :
    validateErrors inp = ["Email must contain @", "Age must be between 0 and 150"] ∧
    validate inp = PluginOutput.mkError
      (String.intercalate "; " ["Email must contain @", "Age must be between 0 and 150"]) ∧
    (validate inp).success = false ∧ (validate inp).action = some "fail" ∧
    (validate inp).error = some "Email must contain @; Age must be between 0 and 150" := by
  have hi64 : (Json.intNum n).asI64 = some n := by
    show (if -(2 ^ 63) ≤ n ∧ n < 2 ^ 63 then some n else none) = some n
    rw [if_pos ⟨hlo, hhi⟩]
  have herrs : validateErrors inp =
      ["Email must contain @", "Age must be between 0 and 150"] := by
    simp [validateErrors, hemail, hage, hne, hat, Json.asStr, hi64, hrange]
  have hmain : validate inp = PluginOutput.mkError
      (String.intercalate "; " ["Email must contain @", "Age must be between 0 and 150"]) := by
    unfold validate
    dsimp only
    rw [herrs]
    rfl
  rw [hmain]
  exact ⟨herrs, rfl, rfl, rfl, rfl⟩

/-- Witness for C3: email `"x"` and age `200` produce the aggregated two-message error. -/
theorem validate_aggregates_witness :
    validate { function := "validate", user_id := none, tenant_id := none,
               input := [("email", Json.str "x"), ("age", Json.intNum 200)],
               journey_data := [] } =
      PluginOutput.mkError "Email must contain @; Age must be between 0 and 150" :=
  (validate_aggregates { function := "validate", user_id := none, tenant_id := none,
                         input := [("email", Json.str "x"), ("age", Json.intNum 200)],
                         journey_data := [] } "x" 200 rfl rfl (by decide) rfl
     (by norm_num) (by norm_num) (Or.inr (by norm_num))).2.1

/-! ### transform (C6) -/

/-- The output key the transform loop produces for one input entry. -/
def transformKey (kv : String × Json) : String :=
  match kv.2.asStr with
  | some _ => kv.1 ++ "_transformed"
  | none => kv.1

/-- The output value the transform loop produces for one input entry. -/
def transformVal (kv : String × Json) : Json :=
  match kv.2.asStr with
  | some s => Json.str (asciiToUpper s)
  | none => kv.2

theorem transformStep_eq (d : List (String × Json)) (kv : String × Json) :
    transformStep d kv = insertKV d (transformKey kv) (transformVal kv) := by
  unfold transformStep transformKey transformVal
  cases h : kv.2.asStr <;> simp [h]

theorem lookupKV_foldl_transform_not_produced (l : List (String × Json))
    (d : List (String × Json)) (q : String) (hq : q ∉ l.map transformKey) :
    lookupKV (l.foldl transformStep d) q = lookupKV d q := by
  induction l generalizing d with
  | nil => rfl
  | cons a t ih =>
    simp only [List.map_cons, List.mem_cons, not_or] at hq
    rw [List.foldl_cons, ih _ hq.2, transformStep_eq, lookupKV_insert_ne _ _ _ _ hq.1]

theorem lookupKV_foldl_transform_produced (l : List (String × Json))
    (d : List (String × Json)) (kv : String × Json)
    (hmem : kv ∈ l) (hnd : (l.map transformKey).Nodup) :
    lookupKV (l.foldl transformStep d) (transformKey kv) = some (transformVal kv) := by
  induction l generalizing d with
  | nil => cases hmem
  | cons a t ih =>
    rw [List.map_cons, List.nodup_cons] at hnd
    rw [List.foldl_cons]
    rcases List.mem_cons.mp hmem with heq | hmem'
    · subst heq
      rw [lookupKV_foldl_transform_not_produced t _ _ hnd.1, transformStep_eq,
        lookupKV_insert_self]
    · exact ih _ hmem' hnd.2

theorem append_transformed_last (k : String) :
    (k ++ "_transformed").data.getLast? = some 'd' := by
  rw [String.data_append, List.getLast?_append_of_ne_nil _ (by decide)]
  rfl

theorem append_transformed_ne_meta (k : String) :
    k ++ "_transformed" ≠ "transformed_at" ∧ k ++ "_transformed" ≠ "transformer" := by
  constructor <;> intro h <;>
    · have hlast := congrArg (fun s => s.data.getLast?) h
      simp only [append_transformed_last] at hlast
      exact absurd hlast (by decide)

/-- C6 counterexample: with input `{"transformed_at": 5}` — a non-string
entry — the entry is not copied through unchanged: the fixed metadata
overwrites it, so `data.transformed_at` is the fixed timestamp string, not
`5`. -/
theorem transform_unchanged_counterexample :
    Json.asStr (Json.intNum 5) = none ∧
    (transform { function := "transform", user_id := none, tenant_id := none,
                 input := [("transformed_at", Json.intNum 5)], journey_data := [] }).data =
      some [("transformed_at", Json.str "2024-01-01T00:00:00Z"),
            ("transformer", Json.str "hello-plugin")] ∧
    Json.str "2024-01-01T00:00:00Z" ≠ Json.intNum 5 :=
  ⟨rfl, rfl, fun h => Json.noConfusion h⟩

/-- C6 (amended): the transform handler always succeeds with action
`continue`, and — provided the input entries produce pairwise-distinct
output keys and no non-string entry sits at the reserved keys
`transformed_at` or `transformer` — its data maps each ASCII string
entry to `{originalKey}_transformed` with the upper-cased value, keeps
each non-string entry unchanged under its original key, and adds the two
fixed metadata entries (which overwrite any colliding input entry
otherwise).  The upper-case clause is stated for ASCII values only,
where the embedded ASCII case mapping coincides with Rust
`str::to_uppercase`. -/
theorem transform_spec (inp : PluginInput)
    (hnd : (inp.input.map transformKey).Nodup)
    (hmeta : ∀ kv ∈ inp.input, kv.2.asStr = none →
      kv.1 ≠ "transformed_at" ∧ kv.1 ≠ "transformer") :
    (transform inp).success = true ∧ (transform inp).action = some "continue" ∧
    (transform inp).error = none ∧
    ∃ d, (transform inp).data = some d ∧
      lookupKV d "transformed_at" = some (Json.str "2024-01-01T00:00:00Z") ∧
      lookupKV d "transformer" = some (Json.str "hello-plugin") ∧
      (∀ k s, (k, Json.str s) ∈ inp.input → strIsAscii s = true →
        lookupKV d (k ++ "_transformed") = some (Json.str (asciiToUpper s))) ∧
      (∀ kv ∈ inp.input, kv.2.asStr = none → lookupKV d kv.1 = some kv.2) := by
  refine ⟨rfl, rfl, rfl, _, rfl, ?_, lookupKV_insert_self _ _ _, ?_, ?_⟩
  · rw [lookupKV_insert_ne _ _ _ _ (by decide)]
    exact lookupKV_insert_self _ _ _
  · intro k s hmem hascii
    rw [lookupKV_insert_ne _ _ _ _ (append_transformed_ne_meta k).2,
      lookupKV_insert_ne _ _ _ _ (append_transformed_ne_meta k).1]
    exact lookupKV_foldl_transform_produced _ _ (k, Json.str s) hmem hnd
  · intro kv hmem hnone
    obtain ⟨hm1, hm2⟩ := hmeta kv hmem hnone
    rw [lookupKV_insert_ne _ _ _ _ hm2, lookupKV_insert_ne _ _ _ _ hm1]
    have hkey : transformKey kv = kv.1 := by
      unfold transformKey
      rw [hnone]
    have hval : transformVal kv = kv.2 := by
      unfold transformVal
      rw [hnone]
    have hp := lookupKV_foldl_transform_produced inp.input [] kv hmem hnd
    rw [hkey, hval] at hp
    exact hp

/-- Witness for C6: input `{"x": "abc", "y": 5}` yields `x_transformed =
"ABC"`, `y = 5` unchanged, and the two metadata entries. -/
theorem transform_spec_witness :
    ∃ d, (transform { function := "transform", user_id := none, tenant_id := none,
                      input := [("x", Json.str "abc"), ("y", Json.intNum 5)],
                      journey_data := [] }).data = some d ∧
      lookupKV d "x_transformed" = some (Json.str "ABC") ∧
      lookupKV d "y" = some (Json.intNum 5) ∧
      lookupKV d "transformed_at" = some (Json.str "2024-01-01T00:00:00Z") ∧
      lookupKV d "transformer" = some (Json.str "hello-plugin") := by
  obtain ⟨-, -, -, d, hd, hta, htr, hstr, hns⟩ :=
    transform_spec { function := "transform", user_id := none, tenant_id := none,
                     input := [("x", Json.str "abc"), ("y", Json.intNum 5)],
                     journey_data := [] } (by decide)
      (by
        intro kv hkv hnone
        rcases List.mem_cons.mp hkv with h | h
        · rw [h] at hnone
          cases hnone
        · rcases List.mem_cons.mp h with h2 | h2
          · rw [h2]
            exact ⟨by decide, by decide⟩
          · cases h2)
  refine ⟨d, hd, ?_, ?_, hta, htr⟩
  · exact hstr "x" "abc" (List.mem_cons_self _ _) (by decide)
  · exact hns ("y", Json.intNum 5) (List.mem_cons_of_mem _ (List.mem_cons_self _ _)) rfl

/-! ### decoding and the two failure tiers (C9) -/

def exceptIsOk {ε α : Type} : Except ε α → Bool
  | .ok _ => true
  | .error _ => false

/-- Spec-side well-formedness of a request value, following the claim's
words: the request must be an object, must not be missing the required
`function`, `input` or `journeyData` fields, and no field may be
type-mismatched (`function` a string, `userId` and `tenantId` absent, null
or strings, `input` and `journeyData` objects).  Extra fields are
irrelevant. -/
def requestWellFormed (v : Json) : Bool :=
  match v with
  | Json.obj fields =>
    (match lookupKV fields "function" with
     | some (Json.str _) => true
     | _ => false) &&
    (match lookupKV fields "userId" with
     | none => true
     | some Json.null => true
     | some (Json.str _) => true
     | _ => false) &&
    (match lookupKV fields "tenantId" with
     | none => true
     | some Json.null => true
     | some (Json.str _) => true
     | _ => false) &&
    (match lookupKV fields "input" with
     | some (Json.obj _) => true
     | _ => false) &&
    (match lookupKV fields "journeyData" with
     | some (Json.obj _) => true
     | _ => false)
  | _ => false

theorem decode_tail_eq (fields : List (String × Json)) (fn : String)
    (uid tid : Option String) :
    exceptIsOk
      ((match lookupKV fields "input" with
        | some (Json.obj iv) =>
          match lookupKV fields "journeyData" with
          | some (Json.obj jv) =>
            Except.ok { function := fn, user_id := uid, tenant_id := tid,
                        input := iv, journey_data := jv }
          | some _ => Except.error "invalid type for field journeyData"
          | none => Except.error "missing field journeyData"
        | some _ => Except.error "invalid type for field input"
        | none => Except.error "missing field input" : Except String PluginInput)) =
      ((match lookupKV fields "input" with
        | some (Json.obj _) => true
        | _ => false) &&
       (match lookupKV fields "journeyData" with
        | some (Json.obj _) => true
        | _ => false)) := by
  cases hi : lookupKV fields "input" with
  | none => rfl
  | some ji =>
    cases ji <;> try rfl
    cases hj : lookupKV fields "journeyData" with
    | none => rfl
    | some jj => cases jj <;> rfl

theorem decode_isOk_eq (v : Json) :
    exceptIsOk (decodePluginInput v) = requestWellFormed v := by
  cases v with
  | null => rfl
  | bool b => rfl
  | intNum n => rfl
  | floatNum q => rfl
  | str s => rfl
  | arr elems => rfl
  | obj fields =>
    simp only [decodePluginInput, requestWellFormed]
    cases hf : lookupKV fields "function" with
    | none => rfl
    | some jf =>
      cases jf <;> try rfl
      cases hu : lookupKV fields "userId" with
      | none =>
        cases ht : lookupKV fields "tenantId" with
        | none => exact decode_tail_eq fields _ _ _
        | some jt =>
          cases jt <;> try rfl
          all_goals exact decode_tail_eq fields _ _ _
      | some ju =>
        cases ju <;> try rfl
        all_goals
          cases ht : lookupKV fields "tenantId" with
          | none => exact decode_tail_eq fields _ _ _
          | some jt =>
            cases jt <;> try rfl
            all_goals exact decode_tail_eq fields _ _ _

theorem decode_ignores_unknown_field (fields : List (String × Json)) (k : String) (w : Json)
    (h1 : k ≠ "function") (h2 : k ≠ "userId") (h3 : k ≠ "tenantId")
    (h4 : k ≠ "input") (h5 : k ≠ "journeyData") :
    decodePluginInput (Json.obj ((k, w) :: fields)) = decodePluginInput (Json.obj fields) := by
  simp only [decodePluginInput, lookupKV, if_neg h1, if_neg h2, if_neg h3, if_neg h4, if_neg h5]

/-- C9: the execute and validate_input entry points produce a hard
call-level failure (no partial outcome) exactly when the request value is
ill-formed — not an object, missing `function`, `input` or `journeyData`,
or carrying a type-mismatched field; unknown extra fields are ignored by
the decoder; and whenever decoding succeeds the call completes normally
with an encoded outcome (soft failures included). -/
theorem entry_points_failure_tiers (v : Json) :
    ((∃ e, executeEntry v = .error e) ↔ requestWellFormed v = false) ∧
    ((∃ e, validateInputEntry v = .error e) ↔ requestWellFormed v = false) ∧
    (∀ inp, decodePluginInput v = .ok inp →
      executeEntry v = .ok (encodeOutput (dispatch inp)) ∧
      validateInputEntry v = .ok (encodeOutput (validate inp))) ∧
    (∀ fields k w, k ≠ "function" → k ≠ "userId" → k ≠ "tenantId" →
      k ≠ "input" → k ≠ "journeyData" →
      decodePluginInput (Json.obj ((k, w) :: fields)) = decodePluginInput (Json.obj fields)) := by
  cases hdec : decodePluginInput v with
  | error e =>
    have hwf : requestWellFormed v = false := by
      rw [← decode_isOk_eq, hdec]
      rfl
    have he1 : executeEntry v = .error ("Failed to parse input: " ++ e) := by
      unfold executeEntry
      rw [hdec]
    have he2 : validateInputEntry v = .error ("Failed to parse input: " ++ e) := by
      unfold validateInputEntry
      rw [hdec]
    refine ⟨⟨fun _ => hwf, fun _ => ⟨_, he1⟩⟩, ⟨fun _ => hwf, fun _ => ⟨_, he2⟩⟩, ?_, ?_⟩
    · intro inp hinp
      cases hinp
    · exact fun fields k w h1 h2 h3 h4 h5 =>
        decode_ignores_unknown_field fields k w h1 h2 h3 h4 h5
  | ok inp =>
    have hwf : requestWellFormed v = true := by
      rw [← decode_isOk_eq, hdec]
      rfl
    have he1 : executeEntry v = .ok (encodeOutput (dispatch inp)) := by
      unfold executeEntry
      rw [hdec]
    have he2 : validateInputEntry v = .ok (encodeOutput (validate inp)) := by
      unfold validateInputEntry
      rw [hdec]
    refine ⟨⟨?_, ?_⟩, ⟨?_, ?_⟩, ?_, ?_⟩
    · rintro ⟨e, he⟩
      rw [he1] at he
      cases he
    · intro hf
      rw [hwf] at hf
      cases hf
    · rintro ⟨e, he⟩
      rw [he2] at he
      cases he
    · intro hf
      rw [hwf] at hf
      cases hf
    · intro inp2 hinp
      injection hinp with h
      subst h
      exact ⟨he1, he2⟩
    · exact fun fields k w h1 h2 h3 h4 h5 =>
        decode_ignores_unknown_field fields k w h1 h2 h3 h4 h5

/-- Witness for C9: a well-formed request with an unknown extra field
decodes (the extra field ignored) and completes, while a non-object
request hard-fails. -/
theorem entry_points_failure_tiers_witness :
    executeEntry (Json.obj [("function", Json.str "greet"), ("extra", Json.bool true),
                            ("input", Json.obj []), ("journeyData", Json.obj [])]) =
      .ok (encodeOutput (dispatch { function := "greet", user_id := none, tenant_id := none,
                                    input := [], journey_data := [] })) ∧
    (∃ e, executeEntry (Json.str "oops") = .error e) :=
  ⟨((entry_points_failure_tiers
      (Json.obj [("function", Json.str "greet"), ("extra", Json.bool true),
                 ("input", Json.obj []), ("journeyData", Json.obj [])])).2.2.1
      { function := "greet", user_id := none, tenant_id := none,
        input := [], journey_data := [] } rfl).1,
   (entry_points_failure_tiers (Json.str "oops")).1.mpr rfl⟩
